import Mathlib

/-!
Verification of the Tabak-model reproduction scripts
(`code/tabak.py` and `code/analysis.py`).

Numeric scalars of the Python code are embedded as rationals (`ℚ`),
NumPy arrays as `List ℚ`.  The external NEURON simulator is treated as
an external dependency: its output trace enters the embedded functions
as an arbitrary pair of lists, exactly as the scripts only post-process
that output.
-/

namespace Tabak

/-- `dt = 0.01` ms from `tabak.py`. -/
def dt : ℚ := 1 / 100

/-- `A = 3.1415927e-6` cm² from `tabak.py`. -/
def A : ℚ := 31415927 / 10 ^ 13

/-- `scale_conductance(G_x) = G_x * 1e-9 / A` from `tabak.py`:
rescales conductances from nS to the S/cm² required by NEURON. -/
def scale_conductance (G_x : ℚ) : ℚ :=
  G_x * (1 / 10 ^ 9) / A

/-- `g_l_scaled = scale_conductance(0.2)` from `tabak.py`. -/
def g_l_scaled : ℚ := scale_conductance (2 / 10)

/-- `g_K_scaled = scale_conductance(3)` from `tabak.py`. -/
def g_K_scaled : ℚ := scale_conductance 3

/-- `g_Ca_scaled = scale_conductance(2)` from `tabak.py`. -/
def g_Ca_scaled : ℚ := scale_conductance 2

/-- `g_SK_scaled = scale_conductance(2)` from `tabak.py`. -/
def g_SK_scaled : ℚ := scale_conductance 2

/-- NumPy boolean-mask selection `xs[mask]`: keeps `xs[i]` exactly when
`mask[i]` is true, preserving order. -/
def bool_mask_select : List Bool → List ℚ → List ℚ
  | true :: ms, x :: xs => x :: bool_mask_select ms xs
  | false :: ms, _ :: xs => bool_mask_select ms xs
  | _, _ => []

/-- The post-processing of `tabak` in `tabak.py` line 299:
`return time[time > discard], voltage[time > discard]`.
The trace `(time, voltage)` returned by `run_simulation` is taken as
input, since the integration itself happens inside the external NEURON
engine. -/
def tabak_post (discard : ℚ) (time voltage : List ℚ) : List ℚ × List ℚ :=
  let mask := time.map (fun t => decide (discard < t))
  (bool_mask_select mask time, bool_mask_select mask voltage)

/-- One `nrn.fadvance()` call in fixed-step mode, under the precondition
that the simulator advances `t` by exactly `dt` per call. -/
def fadvance_t (t dtq : ℚ) : ℚ := t + dtq

/-- The value of `nrn.t` before iteration `i` of the noise loop in
`run_simulation` (`t = 0` after `nrn.finitialize`); iteration `i`
executes, and reads `noise[i]`, exactly when this value is below
`simulation_time`. -/
def noise_loop_t (dtq : ℚ) : ℕ → ℚ
  | 0 => 0
  | i + 1 => fadvance_t (noise_loop_t dtq i) dtq

/-- `n_steps = int(np.ceil(simulation_time/nrn.dt)) + 1` from
`run_simulation` in `tabak.py`; the length of the `noise` array. -/
def n_steps (simulation_time dtq : ℚ) : ℤ :=
  ⌈simulation_time / dtq⌉ + 1

/-- Modelled from the spec: the fixed potential cutoff used by the event
detection of `burstiness.py`, which is not under `src/`.  The spec only
says events are "threshold-crossing intervals" of the voltage trace; the
claims settled here do not depend on the cutoff's numeric value. -/
def event_threshold : ℚ := -55

/-- Modelled from the spec: the fixed duration threshold of
`burstiness.py` (not under `src/`) separating "spikes" from "bursts",
in ms.  The claims settled here do not depend on its numeric value. -/
def burst_threshold : ℚ := 60

/-- Modelled from the spec: the event segmentation of `burstiness.py`
(not under `src/`) — "detects threshold-crossing intervals" and measures
"time above threshold".  Walks the trace carrying the start time of the
interval currently above `event_threshold`, if any, and emits the
interval's duration when the voltage falls back below the cutoff. -/
def detect_events : List (ℚ × ℚ) → Option ℚ → List ℚ
  | [], _ => []
  | (t, v) :: rest, none =>
    if event_threshold < v then detect_events rest (some t)
    else detect_events rest none
  | (t, v) :: rest, some t0 =>
    if event_threshold < v then detect_events rest (some t0)
    else (t - t0) :: detect_events rest none

/-- Modelled from the spec: `duration(time, voltage)` of `burstiness.py`
(not under `src/`) — the sequence of scalar durations of the detected
threshold-crossing events of a trace. -/
def duration (time voltage : List ℚ) : List ℚ :=
  detect_events (time.zip voltage) none

/-- Modelled from the spec: `burstiness(event_durations)` of
`burstiness.py` (not under `src/`) — "the fraction of detected events
classified as bursts rather than spikes by a duration threshold";
undefined (no scalar) when no event was detected. -/
def burstiness (event_durations : List ℚ) : Option ℚ :=
  if event_durations.length = 0 then none
  else some ((event_durations.countP (fun d => decide (burst_threshold < d)) : ℚ)
      / event_durations.length)

/-- `discard = 10000` ms from `analysis.py`. -/
def analysis_discard : ℚ := 10000

/-- `robustness_reruns = 512` from `analysis.py` ("From original
article"). -/
def robustness_reruns : ℕ := 512

/-- The bin edges of `np.histogram(xs, bins=nbins, range=(lo, hi))`:
`nbins + 1` equally spaced values from `lo` to `hi`. -/
def histogram_edges (nbins : ℕ) (lo hi : ℚ) : List ℚ :=
  (List.range (nbins + 1)).map (fun i => lo + (hi - lo) * i / nbins)

/-- Membership of `x` in bin `j` of `np.histogram` with `nbins` bins over
`(lo, hi)`: bins are half-open except the last, which is closed. -/
def in_bin (nbins : ℕ) (lo hi : ℚ) (j : ℕ) (x : ℚ) : Bool :=
  if j + 1 = nbins then
    decide (lo + (hi - lo) * j / nbins ≤ x) && decide (x ≤ hi)
  else
    decide (lo + (hi - lo) * j / nbins ≤ x)
      && decide (x < lo + (hi - lo) * (j + 1) / nbins)

/-- The counts of `np.histogram(xs, bins=nbins, range=(lo, hi))`. -/
def histogram_counts (xs : List ℚ) (nbins : ℕ) (lo hi : ℚ) : List ℕ :=
  (List.range nbins).map (fun j => xs.countP (in_bin nbins lo hi j))

/-- Row `i` of the parameter matrix
`np.array([g_BKs, g_K, g_Ca, g_SK, g_l, As, dts]).T` built by
`robustness` in `analysis.py`: the per-rerun argument list
`[g_BK, g_K[i], g_Ca[i], g_SK[i], g_l[i], A, dt]` handed to
`tabak_parallel`, where `g_BKs`, `As` and `dts` are the constant arrays
`np.ones(robustness_reruns) * v`.  The four conductance columns are the
arrays drawn by `np.random.uniform`; they enter here as inputs. -/
def robustness_parameters (g_BK Aval dtv : ℚ)
    (g_K g_Ca g_SK g_l : List ℚ) : List (List ℚ) :=
  (List.range robustness_reruns).map (fun i =>
    [g_BK, g_K.getD i 0, g_Ca.getD i 0, g_SK.getD i 0, g_l.getD i 0, Aval, dtv])

/-- The aggregation at the end of `robustness`:
`np.histogram(burstiness_factors, bins=10, range=(0, 1))`. -/
def robustness_hist (burstiness_factors : List ℚ) : List ℕ × List ℚ :=
  (histogram_counts burstiness_factors 10 0 1, histogram_edges 10 0 1)

/-- The module-level names defined in `src/code/tabak.py`. -/
def tabak_module_names : List String :=
  ["dt", "A", "scale_conductance", "c", "alpha",
   "g_l_scaled", "g_K_scaled", "g_Ca_scaled", "g_SK_scaled",
   "create_soma", "insert_current_clamp", "run_simulation", "record",
   "tabak"]

/-- The names `analysis.py` (lines 12-13) imports from the `tabak`
module. -/
def analysis_tabak_imports : List String :=
  ["scale_conductance", "tabak", "scale_capacitance", "scale_alpha",
   "scale_tabak", "G_l", "G_K", "G_SK", "G_Ca", "C", "Alpha"]

/-- The parameter names accepted by `def tabak(...)` in
`src/code/tabak.py` (lines 230-240). -/
def tabak_accepted_params : List String :=
  ["g_l", "e_pas", "g_K", "g_Ca", "g_SK", "g_BK", "tau_BK",
   "simulation_time", "noise_amplitude", "discard", "stimulus_amplitude"]

/-- The keyword arguments `tabak_parallel` in `analysis.py`
(lines 192-203) passes to `tabak`. -/
def tabak_parallel_keywords : List String :=
  ["noise_amplitude", "discard", "simulation_time", "g_BK", "g_K",
   "g_Ca", "g_SK", "g_l", "c", "alpha", "A", "dt"]

/-- Number of positional parameters of `def scale_conductance(G_x)` in
`src/code/tabak.py`. -/
def scale_conductance_arity : ℕ := 1

/-- Number of arguments in the calls `scale_conductance(G_BKs, A)`,
`scale_conductance(G_l, A)`, ... in `analysis.py`. -/
def analysis_scale_conductance_call_arity : ℕ := 2

/-- The `.npy` files of the data folder: file name to stored array. -/
def Store : Type := String → Option (List ℚ)

/-- `os.path.join` for the two-component paths used here. -/
def os_path_join (a b : String) : String := a ++ "/" ++ b

/-- `data_folder = "data"` from `analysis.py`. -/
def data_folder : String := "data"

/-- `np.save(name, arr)`: writes `arr` to the file `name + ".npy"`. -/
def np_save (store : Store) (nam : String) (arr : List ℚ) : Store :=
  fun n => if n = nam ++ ".npy" then some arr else store n

/-- `np.load(filename)`: reads the file, if present. -/
def np_load (store : Store) (filename : String) : Option (List ℚ) :=
  store filename

/-- The six `np.save` calls at the end of `generate_data_figure_2` in
`analysis.py`, in program order. -/
def save_results_figure_2 (store : Store)
    (bins_0 bins_05 bins_1 bbf_0 bbf_05 bbf_1 : List ℚ) : Store :=
  np_save (np_save (np_save (np_save (np_save (np_save store
    (os_path_join data_folder "bins_0") bins_0)
    (os_path_join data_folder "bins_05") bins_05)
    (os_path_join data_folder "bins_1") bins_1)
    (os_path_join data_folder "binned_burstiness_factors_0") bbf_0)
    (os_path_join data_folder "binned_burstiness_factors_05") bbf_05)
    (os_path_join data_folder "binned_burstiness_factors_1") bbf_1

/-- `load_results_figure_2` from `analysis.py`: the six `np.load` calls,
returned in the same order as `generate_data_figure_2` returns them. -/
def load_results_figure_2 (store : Store) :
    Option (List ℚ) × Option (List ℚ) × Option (List ℚ)
      × Option (List ℚ) × Option (List ℚ) × Option (List ℚ) :=
  (np_load store (os_path_join data_folder "bins_0.npy"),
   np_load store (os_path_join data_folder "bins_05.npy"),
   np_load store (os_path_join data_folder "bins_1.npy"),
   np_load store (os_path_join data_folder "binned_burstiness_factors_0.npy"),
   np_load store (os_path_join data_folder "binned_burstiness_factors_05.npy"),
   np_load store (os_path_join data_folder "binned_burstiness_factors_1.npy"))

/-- The numpy buffers of `figure_1` in `analysis.py` that exist before
the rescaling block (lines 350-361): the three traces returned by
`tabak` and the duration bins from `calculate_frequency_bf`. -/
structure Fig1Buffers where
  time_0 : List ℚ
  time_05 : List ℚ
  time_1 : List ℚ
  V_0 : List ℚ
  V_05 : List ℚ
  V_1 : List ℚ
  bins_0 : List ℚ
  bins_05 : List ℚ
  bins_1 : List ℚ

/-- The rescaling block of `figure_1` (`analysis.py` lines 350-361):
`time_0 -= discard; ...; time_0 /= 1000; ...; bins_0 /= 1000; ...`.
These numpy operators act in place, so each field holds the new contents
of the same buffer the earlier pipeline produced. -/
def figure_1_rescale (s : Fig1Buffers) : Fig1Buffers :=
  { s with
    time_0 := (s.time_0.map (fun t => t - analysis_discard)).map (fun t => t / 1000)
    time_05 := (s.time_05.map (fun t => t - analysis_discard)).map (fun t => t / 1000)
    time_1 := (s.time_1.map (fun t => t - analysis_discard)).map (fun t => t / 1000)
    bins_0 := s.bins_0.map (fun t => t / 1000)
    bins_05 := s.bins_05.map (fun t => t / 1000)
    bins_1 := s.bins_1.map (fun t => t / 1000) }

/-- A concrete buffer state: one trace sample at `t = 11000` ms. -/
def fig1_example : Fig1Buffers :=
  ⟨[11000], [], [], [], [], [], [], [], []⟩

/-- The result-collection loop of `robustness` in `analysis.py`
(lines 267-277): `pool.imap` yields the worker results in order and
re-raises, at the corresponding iteration, any exception raised inside a
worker; no handler exists anywhere in the scripts, so an error aborts
the collection.  `eval1` is one `tabak_parallel` evaluation, which
either returns a burstiness factor or raises. -/
def collect_burstiness_factors (eval1 : List ℚ → Except String ℚ) :
    List (List ℚ) → Except String (List ℚ)
  | [] => Except.ok []
  | row :: rest =>
    match eval1 row with
    | Except.error e => Except.error e
    | Except.ok bf =>
      match collect_burstiness_factors eval1 rest with
      | Except.error e => Except.error e
      | Except.ok bfs => Except.ok (bf :: bfs)

/-- `robustness` after the collection loop: the aggregate statistics
(the burstiness histogram) are computed only from the complete list of
collected results; a worker error instead propagates to the caller. -/
def robustness_result (eval1 : List ℚ → Except String ℚ)
    (rows : List (List ℚ)) : Except String (List ℕ × List ℚ) :=
  match collect_burstiness_factors eval1 rows with
  | Except.error e => Except.error e
  | Except.ok bfs => Except.ok (robustness_hist bfs)

end Tabak

open Tabak

theorem bool_mask_select_map_self (p : ℚ → Bool) (ts : List ℚ) :
    bool_mask_select (ts.map p) ts = ts.filter p := by
  induction ts with
  | nil => rfl
  | cons t ts ih =>
    by_cases hp : p t
    · simp [bool_mask_select, List.filter, hp, ih]
    · simp only [Bool.not_eq_true] at hp
      simp [bool_mask_select, List.filter, hp, ih]

theorem bool_mask_select_zip (p : ℚ → Bool) :
    ∀ ts vs : List ℚ, ts.length = vs.length →
      (bool_mask_select (ts.map p) ts).zip (bool_mask_select (ts.map p) vs)
        = (ts.zip vs).filter (fun q => p q.1) := by
  intro ts
  induction ts with
  | nil =>
    intro vs h
    cases vs with
    | nil => rfl
    | cons v vs => simp at h
  | cons t ts ih =>
    intro vs h
    cases vs with
    | nil => simp at h
    | cons v vs =>
      simp only [List.length_cons, Nat.succ_inj] at h
      have ih' := ih vs h
      simp only [List.zip] at ih' ⊢
      by_cases hp : p t
      · simp [bool_mask_select, List.filter, hp, ih']
      · simp only [Bool.not_eq_true] at hp
        simp [bool_mask_select, List.filter, hp, ih']

theorem bool_mask_select_length (p : ℚ → Bool) :
    ∀ ts vs : List ℚ, ts.length = vs.length →
      (bool_mask_select (ts.map p) vs).length = (ts.filter p).length := by
  intro ts
  induction ts with
  | nil =>
    intro vs h
    cases vs with
    | nil => rfl
    | cons v vs => simp at h
  | cons t ts ih =>
    intro vs h
    cases vs with
    | nil => simp at h
    | cons v vs =>
      simp only [List.length_cons, Nat.succ_inj] at h
      by_cases hp : p t
      · simp [bool_mask_select, List.filter, hp, ih vs h]
      · simp only [Bool.not_eq_true] at hp
        simp [bool_mask_select, List.filter, hp, ih vs h]

theorem noise_loop_t_eq (dtq : ℚ) (i : ℕ) : noise_loop_t dtq i = i * dtq := by
  induction i with
  | zero => simp [noise_loop_t]
  | succ n ih =>
    simp only [noise_loop_t, fadvance_t, ih, Nat.cast_succ]
    ring

/-- C3: `scale_conductance` is the fixed linear map `G ↦ G * 1e-9 / A`
with `A = 3.1415927e-6`: it is homogeneous, additive, and sends 0 to 0. -/
theorem scale_conductance_linear :
    (∀ G : ℚ, Tabak.scale_conductance G = G * (1 / 10 ^ 9) / Tabak.A)
    ∧ Tabak.A = 31415927 / 10 ^ 13
    ∧ (∀ a G : ℚ, Tabak.scale_conductance (a * G) = a * Tabak.scale_conductance G)
    ∧ (∀ G₁ G₂ : ℚ, Tabak.scale_conductance (G₁ + G₂)
        = Tabak.scale_conductance G₁ + Tabak.scale_conductance G₂)
    ∧ Tabak.scale_conductance 0 = 0 := by
  refine ⟨fun G => rfl, rfl, fun a G => ?_, fun G₁ G₂ => ?_, ?_⟩
  · simp [Tabak.scale_conductance]; ring
  · simp [Tabak.scale_conductance]; ring
  · simp [Tabak.scale_conductance]

/-- C2: for every discard value and every aligned trace returned by the
simulator, `tabak` keeps exactly the samples whose time is strictly
greater than `discard`, at the same indices in both arrays, and the two
returned arrays have equal length. -/
theorem tabak_post_discard (discard : ℚ) (time voltage : List ℚ)
    (h : time.length = voltage.length) :
    (Tabak.tabak_post discard time voltage).1.length
      = (Tabak.tabak_post discard time voltage).2.length
    ∧ (Tabak.tabak_post discard time voltage).1.zip
        (Tabak.tabak_post discard time voltage).2
      = (time.zip voltage).filter (fun q => decide (discard < q.1))
    ∧ (Tabak.tabak_post discard time voltage).1
      = time.filter (fun t => decide (discard < t)) := by
  refine ⟨?_, ?_, ?_⟩
  · show (Tabak.bool_mask_select _ time).length
      = (Tabak.bool_mask_select _ voltage).length
    rw [bool_mask_select_length _ time time rfl,
      bool_mask_select_length _ time voltage h]
  · exact bool_mask_select_zip _ time voltage h
  · exact bool_mask_select_map_self _ time

/-- C2 witness at a concrete trace. -/
theorem tabak_post_discard_witness :
    ([(5 : ℚ), 15, 25].length = [(1 : ℚ), 2, 3].length)
    ∧ (Tabak.tabak_post 10 [5, 15, 25] [1, 2, 3]).1.zip
        (Tabak.tabak_post 10 [5, 15, 25] [1, 2, 3]).2
      = [((15 : ℚ), (2 : ℚ)), (25, 3)] := by
  refine ⟨rfl, ?_⟩
  rw [(tabak_post_discard 10 [5, 15, 25] [1, 2, 3] rfl).2.1]
  decide

/-- C6: whenever the simulator's recorded time sequence is strictly
increasing, the time sequence returned by `tabak` after discarding the
initial transient is still strictly increasing. -/
theorem tabak_time_strictly_increasing (discard : ℚ) (time voltage : List ℚ)
    (h : time.Sorted (· < ·)) :
    (Tabak.tabak_post discard time voltage).1.Sorted (· < ·) := by
  show (Tabak.bool_mask_select _ time).Sorted (· < ·)
  rw [bool_mask_select_map_self _ time]
  exact List.Pairwise.filter _ h

/-- C6 witness at a concrete strictly increasing time sequence. -/
theorem tabak_time_strictly_increasing_witness :
    (Tabak.tabak_post 10 [0, 5, 20, 30] [1, 2, 3, 4]).1.Sorted (· < ·) :=
  tabak_time_strictly_increasing 10 [0, 5, 20, 30] [1, 2, 3, 4] (by decide)

/-- C1: whenever at least one event is detected in a trace, the
burstiness factor of the run is defined, equals the fraction of detected
events whose duration strictly exceeds `burst_threshold`, and lies in
`[0, 1]`. -/
theorem burstiness_factor_fraction (time voltage : List ℚ)
    (h : Tabak.duration time voltage ≠ []) :
    Tabak.burstiness (Tabak.duration time voltage)
      = some (((Tabak.duration time voltage).countP
            (fun d => decide (Tabak.burst_threshold < d)) : ℚ)
          / (Tabak.duration time voltage).length)
    ∧ ∀ b, Tabak.burstiness (Tabak.duration time voltage) = some b →
        0 ≤ b ∧ b ≤ 1 := by
  have hlen : (Tabak.duration time voltage).length ≠ 0 := by
    simpa [List.length_eq_zero] using h
  constructor
  · simp [Tabak.burstiness, hlen]
  · intro b hb
    simp only [Tabak.burstiness, hlen, if_false, ite_false, Option.some.injEq] at hb
    have hpos : (0 : ℚ) < (Tabak.duration time voltage).length := by
      exact_mod_cast Nat.pos_of_ne_zero hlen
    constructor
    · rw [← hb]
      positivity
    · rw [← hb]
      rw [div_le_one hpos]
      exact_mod_cast List.countP_le_length _

/-- C1 witness at a concrete trace with one detected event. -/
theorem burstiness_factor_fraction_witness :
    ∃ b, Tabak.burstiness (Tabak.duration [0, 1, 2, 3] [-60, -30, -60, -60])
        = some b ∧ 0 ≤ b ∧ b ≤ 1 := by
  have h : Tabak.duration [0, 1, 2, 3] [-60, -30, -60, -60] ≠ [] := by decide
  exact ⟨_, (burstiness_factor_fraction _ _ h).1,
    (burstiness_factor_fraction _ _ h).2 _ (burstiness_factor_fraction _ _ h).1⟩

/-- C10: in the noise loop of `run_simulation`, under the precondition
that the simulator advances `t` by exactly `dt` per `fadvance` call,
every iteration that passes the guard `nrn.t < simulation_time` uses an
index `i` strictly below `n_steps`, so `noise[i]` is in bounds. -/
theorem noise_index_in_bounds (simulation_time dtq : ℚ) (hdt : 0 < dtq)
    (i : ℕ) (hguard : Tabak.noise_loop_t dtq i < simulation_time) :
    (i : ℤ) < Tabak.n_steps simulation_time dtq := by
  rw [noise_loop_t_eq] at hguard
  have h1 : (i : ℚ) < simulation_time / dtq := (lt_div_iff₀ hdt).2 hguard
  have h2 : simulation_time / dtq ≤ ((⌈simulation_time / dtq⌉ : ℤ) : ℚ) :=
    Int.le_ceil _
  have h3 : (i : ℤ) ≤ ⌈simulation_time / dtq⌉ := by
    exact_mod_cast (h1.trans_le h2).le
  unfold Tabak.n_steps
  omega

/-- C10 witness at `simulation_time = 3`, `dt = 1/2`, iteration 5. -/
theorem noise_index_in_bounds_witness :
    (5 : ℤ) < Tabak.n_steps 3 (1 / 2) :=
  noise_index_in_bounds 3 (1 / 2) (by norm_num) 5
    (by rw [noise_loop_t_eq]; norm_num)

theorem scale_conductance_nonneg (G : ℚ) (hG : 0 ≤ G) :
    0 ≤ scale_conductance G := by
  unfold Tabak.scale_conductance Tabak.A
  positivity

theorem replicate_in_uniform_range (v : ℚ) (hv : 0 ≤ v) :
    ∀ x ∈ List.replicate 512 v, v * (1 / 2) ≤ x ∧ x ≤ v * (3 / 2) := by
  intro x hx
  rw [List.eq_of_mem_replicate hx]
  constructor <;> nlinarith

theorem collect_error_of_mem (eval1 : List ℚ → Except String ℚ)
    (rows : List (List ℚ))
    (hrow : ∃ row ∈ rows, ∃ e, eval1 row = Except.error e) :
    ∃ e, collect_burstiness_factors eval1 rows = Except.error e := by
  induction rows with
  | nil => simp at hrow
  | cons r rest ih =>
    obtain ⟨row, hmem, e, he⟩ := hrow
    rcases List.mem_cons.1 hmem with h | h
    · subst h
      exact ⟨e, by simp [collect_burstiness_factors, he]⟩
    · cases hv : eval1 r with
      | error e2 => exact ⟨e2, by simp [collect_burstiness_factors, hv]⟩
      | ok bf =>
        obtain ⟨e3, he3⟩ := ih ⟨row, h, e, he⟩
        exact ⟨e3, by simp [collect_burstiness_factors, hv, he3]⟩

theorem collect_length (eval1 : List ℚ → Except String ℚ) :
    ∀ rows bfs, collect_burstiness_factors eval1 rows = Except.ok bfs →
      bfs.length = rows.length := by
  intro rows
  induction rows with
  | nil =>
    intro bfs h
    simp only [collect_burstiness_factors] at h
    cases h
    rfl
  | cons r rest ih =>
    intro bfs h
    simp only [collect_burstiness_factors] at h
    cases hv : eval1 r with
    | error e => rw [hv] at h; cases h
    | ok bf =>
      rw [hv] at h
      cases hc : collect_burstiness_factors eval1 rest with
      | error e => rw [hc] at h; cases h
      | ok bfs2 =>
        rw [hc] at h
        cases h
        simp [ih bfs2 hc]

/-- C4: the robustness sweep builds exactly `robustness_reruns = 512`
parameter rows; in every row `g_BK`, `A` and `dt` stand at fixed
positions with the same value across all reruns, while the four swept
conductances at positions 1-4 are the drawn values, each inside
`[0.5x, 1.5x]` of its scaled original value (the support of the
`np.random.uniform` draw); the burstiness factors are aggregated by
`np.histogram` into 10 bins whose edges run from 0 to 1. -/
theorem robustness_sweep_structure (g_BK Aval dtv : ℚ)
    (g_K g_Ca g_SK g_l : List ℚ)
    (hKl : g_K.length = robustness_reruns)
    (hCal : g_Ca.length = robustness_reruns)
    (hSKl : g_SK.length = robustness_reruns)
    (hll : g_l.length = robustness_reruns)
    (hK : ∀ x ∈ g_K, g_K_scaled * (1 / 2) ≤ x ∧ x ≤ g_K_scaled * (3 / 2))
    (hCa : ∀ x ∈ g_Ca, g_Ca_scaled * (1 / 2) ≤ x ∧ x ≤ g_Ca_scaled * (3 / 2))
    (hSK : ∀ x ∈ g_SK, g_SK_scaled * (1 / 2) ≤ x ∧ x ≤ g_SK_scaled * (3 / 2))
    (hl : ∀ x ∈ g_l, g_l_scaled * (1 / 2) ≤ x ∧ x ≤ g_l_scaled * (3 / 2)) :
    robustness_reruns = 512
    ∧ (robustness_parameters g_BK Aval dtv g_K g_Ca g_SK g_l).length = 512
    ∧ (∀ row ∈ robustness_parameters g_BK Aval dtv g_K g_Ca g_SK g_l,
        row.length = 7
        ∧ row.getD 0 0 = g_BK ∧ row.getD 5 0 = Aval ∧ row.getD 6 0 = dtv
        ∧ (g_K_scaled * (1 / 2) ≤ row.getD 1 0 ∧ row.getD 1 0 ≤ g_K_scaled * (3 / 2))
        ∧ (g_Ca_scaled * (1 / 2) ≤ row.getD 2 0 ∧ row.getD 2 0 ≤ g_Ca_scaled * (3 / 2))
        ∧ (g_SK_scaled * (1 / 2) ≤ row.getD 3 0 ∧ row.getD 3 0 ≤ g_SK_scaled * (3 / 2))
        ∧ (g_l_scaled * (1 / 2) ≤ row.getD 4 0 ∧ row.getD 4 0 ≤ g_l_scaled * (3 / 2)))
    ∧ (∀ bfs : List ℚ, (robustness_hist bfs).1.length = 10
        ∧ (robustness_hist bfs).2
          = [0, 1 / 10, 2 / 10, 3 / 10, 4 / 10, 5 / 10,
             6 / 10, 7 / 10, 8 / 10, 9 / 10, 1]) := by
  refine ⟨rfl, by simp [robustness_parameters, robustness_reruns], ?_, ?_⟩
  · intro row hrow
    simp only [robustness_parameters, List.mem_map, List.mem_range] at hrow
    obtain ⟨i, hi, rfl⟩ := hrow
    refine ⟨rfl, rfl, rfl, rfl, ?_, ?_, ?_, ?_⟩
    · have hlt : i < g_K.length := by rw [hKl]; exact hi
      show g_K_scaled * (1 / 2) ≤ g_K.getD i 0 ∧ g_K.getD i 0 ≤ g_K_scaled * (3 / 2)
      rw [List.getD_eq_getElem g_K 0 hlt]
      exact hK _ (List.getElem_mem hlt)
    · have hlt : i < g_Ca.length := by rw [hCal]; exact hi
      show g_Ca_scaled * (1 / 2) ≤ g_Ca.getD i 0 ∧ g_Ca.getD i 0 ≤ g_Ca_scaled * (3 / 2)
      rw [List.getD_eq_getElem g_Ca 0 hlt]
      exact hCa _ (List.getElem_mem hlt)
    · have hlt : i < g_SK.length := by rw [hSKl]; exact hi
      show g_SK_scaled * (1 / 2) ≤ g_SK.getD i 0 ∧ g_SK.getD i 0 ≤ g_SK_scaled * (3 / 2)
      rw [List.getD_eq_getElem g_SK 0 hlt]
      exact hSK _ (List.getElem_mem hlt)
    · have hlt : i < g_l.length := by rw [hll]; exact hi
      show g_l_scaled * (1 / 2) ≤ g_l.getD i 0 ∧ g_l.getD i 0 ≤ g_l_scaled * (3 / 2)
      rw [List.getD_eq_getElem g_l 0 hlt]
      exact hl _ (List.getElem_mem hlt)
  · intro bfs
    constructor
    · simp [robustness_hist, histogram_counts]
    · have hE : (robustness_hist bfs).2 = histogram_edges 10 0 1 := rfl
      rw [hE]
      simp only [histogram_edges, List.range_succ, List.range_zero,
        List.map_append, List.map_cons, List.map_nil, List.nil_append,
        List.cons_append, List.append_nil]
      norm_num

/-- C4 witness at the unperturbed scaled conductances. -/
theorem robustness_sweep_structure_witness :
    (robustness_parameters 0 Tabak.A Tabak.dt
      (List.replicate 512 g_K_scaled) (List.replicate 512 g_Ca_scaled)
      (List.replicate 512 g_SK_scaled) (List.replicate 512 g_l_scaled)).length
      = 512 :=
  (robustness_sweep_structure 0 Tabak.A Tabak.dt _ _ _ _
    (by rw [List.length_replicate]; rfl) (by rw [List.length_replicate]; rfl)
    (by rw [List.length_replicate]; rfl) (by rw [List.length_replicate]; rfl)
    (replicate_in_uniform_range _
      (by norm_num [Tabak.g_K_scaled, Tabak.scale_conductance, Tabak.A]))
    (replicate_in_uniform_range _
      (by norm_num [Tabak.g_Ca_scaled, Tabak.scale_conductance, Tabak.A]))
    (replicate_in_uniform_range _
      (by norm_num [Tabak.g_SK_scaled, Tabak.scale_conductance, Tabak.A]))
    (replicate_in_uniform_range _
      (by norm_num [Tabak.g_l_scaled, Tabak.scale_conductance, Tabak.A]))).2.1

/-- C5: the simulation boundary is violated in the code as it stands:
`analysis.py` imports names from the `tabak` module that
`src/code/tabak.py` does not define, and `tabak_parallel` passes keyword
arguments that `def tabak(...)` does not accept (and `scale_conductance`
is called with two arguments where its definition takes one). -/
theorem analysis_tabak_boundary_mismatch :
    "scale_tabak" ∈ analysis_tabak_imports
    ∧ "scale_tabak" ∉ tabak_module_names
    ∧ "scale_capacitance" ∈ analysis_tabak_imports
    ∧ "scale_capacitance" ∉ tabak_module_names
    ∧ "scale_alpha" ∈ analysis_tabak_imports
    ∧ "scale_alpha" ∉ tabak_module_names
    ∧ "G_l" ∈ analysis_tabak_imports
    ∧ "G_l" ∉ tabak_module_names
    ∧ "c" ∈ tabak_parallel_keywords
    ∧ "c" ∉ tabak_accepted_params
    ∧ "alpha" ∈ tabak_parallel_keywords
    ∧ "alpha" ∉ tabak_accepted_params
    ∧ "A" ∈ tabak_parallel_keywords
    ∧ "A" ∉ tabak_accepted_params
    ∧ "dt" ∈ tabak_parallel_keywords
    ∧ "dt" ∉ tabak_accepted_params
    ∧ analysis_scale_conductance_call_arity ≠ scale_conductance_arity := by
  decide

/-- C7: saving the six arrays produced by `generate_data_figure_2` and
then calling `load_results_figure_2` returns exactly the saved arrays,
in the same order. -/
theorem figure_2_results_roundtrip (store : Store)
    (bins_0 bins_05 bins_1 bbf_0 bbf_05 bbf_1 : List ℚ) :
    load_results_figure_2
        (save_results_figure_2 store bins_0 bins_05 bins_1 bbf_0 bbf_05 bbf_1)
      = (some bins_0, some bins_05, some bins_1,
         some bbf_0, some bbf_05, some bbf_1) := by
  simp [load_results_figure_2, save_results_figure_2, np_load, np_save,
    os_path_join, data_folder]

/-- C8 counterexample: the rescaling block of `figure_1` does mutate a
trace's time buffer after its creation — at a concrete trace with one
sample at 11000 ms, the buffer contents change. -/
theorem figure_1_mutation_counterexample :
    (figure_1_rescale fig1_example).time_0 ≠ fig1_example.time_0 := by
  have h1 : (figure_1_rescale fig1_example).time_0
      = [((11000 : ℚ) - analysis_discard) / 1000] := rfl
  have h2 : fig1_example.time_0 = [(11000 : ℚ)] := rfl
  rw [h1, h2]
  norm_num [analysis_discard]

/-- C8 amended: no value produced by the pipeline is mutated after its
creation, except that `figure_1` rescales the trace time buffers and the
duration-bin buffers in place before plotting (times shifted by
`discard` and converted from ms to s, bins converted from ms to s); the
voltage buffers are not mutated. -/
theorem figure_1_rescale_amended (s : Fig1Buffers) :
    (figure_1_rescale s).V_0 = s.V_0
    ∧ (figure_1_rescale s).V_05 = s.V_05
    ∧ (figure_1_rescale s).V_1 = s.V_1
    ∧ (figure_1_rescale s).time_0
      = s.time_0.map (fun t => (t - analysis_discard) / 1000)
    ∧ (figure_1_rescale s).time_05
      = s.time_05.map (fun t => (t - analysis_discard) / 1000)
    ∧ (figure_1_rescale s).time_1
      = s.time_1.map (fun t => (t - analysis_discard) / 1000)
    ∧ (figure_1_rescale s).bins_0 = s.bins_0.map (fun t => t / 1000)
    ∧ (figure_1_rescale s).bins_05 = s.bins_05.map (fun t => t / 1000)
    ∧ (figure_1_rescale s).bins_1 = s.bins_1.map (fun t => t / 1000) := by
  refine ⟨rfl, rfl, rfl, ?_, ?_, ?_, rfl, rfl, rfl⟩ <;>
    simp [figure_1_rescale, List.map_map, Function.comp]

/-- C9: no operation recovers from a worker error — if any rerun's
evaluation raises, `robustness` propagates an error instead of a result;
and the aggregate histogram is computed only once the collection loop
has delivered one burstiness factor per rerun. -/
theorem robustness_no_error_recovery (eval1 : List ℚ → Except String ℚ)
    (rows : List (List ℚ)) :
    ((∃ row ∈ rows, ∃ e, eval1 row = Except.error e) →
      ∃ e, robustness_result eval1 rows = Except.error e)
    ∧ ∀ bfs, collect_burstiness_factors eval1 rows = Except.ok bfs →
        bfs.length = rows.length
        ∧ robustness_result eval1 rows = Except.ok (robustness_hist bfs) := by
  constructor
  · intro h
    obtain ⟨e, he⟩ := collect_error_of_mem eval1 rows h
    exact ⟨e, by simp [robustness_result, he]⟩
  · intro bfs h
    exact ⟨collect_length eval1 rows bfs h, by simp [robustness_result, h]⟩

/-- C9 witness: a failing evaluation aborts the sweep with an error. -/
theorem robustness_no_error_recovery_witness :
    ∃ e, robustness_result (fun _ => Except.error "hoc error") [[0]]
      = Except.error e :=
  (robustness_no_error_recovery (fun _ => Except.error "hoc error") [[0]]).1
    ⟨[0], by simp, "hoc error", rfl⟩
